import Mathlib

/-!
Shallow embedding of the error taxonomy of `prometheus-http-query`
(`src/error.rs`): a top-level `Error` sum type, leaf error values, and the
`Display` rendering of each, translated as `display` functions returning the
rendered `String`.
-/

namespace PromErr

/-- The opaque transport error wrapped by the `Reqwest` variant
(`reqwest::Error`).  The taxonomy only requires it to be displayable, so it is
embedded as the string its own `Display` rendering produces. -/
structure ReqwestError where
  rendered : String
deriving DecidableEq, Repr

/-- `impl fmt::Display for reqwest::Error` (opaque): its own rendering. -/
def ReqwestError.display (e : ReqwestError) : String := e.rendered

/-- `pub struct IllegalMetricNameError;` (unit struct, `src/error.rs:36`). -/
structure IllegalMetricNameError where
deriving DecidableEq, Repr

/-- `impl fmt::Display for IllegalMetricNameError` (`src/error.rs:38-42`). -/
def IllegalMetricNameError.display (_ : IllegalMetricNameError) : String :=
  "the provided metric name is a reserved PromQL keyword"

/-- `pub struct InvalidTimeDurationError;` (unit struct, `src/error.rs:48`). -/
structure InvalidTimeDurationError where
deriving DecidableEq, Repr

/-- `impl fmt::Display for InvalidTimeDurationError` (`src/error.rs:50-54`). -/
def InvalidTimeDurationError.display (_ : InvalidTimeDurationError) : String :=
  "the provided time duration is invalid as it does not comply with PromQL time duration syntax"

/-- `pub struct IllegalTimeSeriesSelectorError;` (unit struct, `src/error.rs:59`). -/
structure IllegalTimeSeriesSelectorError where
deriving DecidableEq, Repr

/-- `impl fmt::Display for IllegalTimeSeriesSelectorError` (`src/error.rs:62-66`). -/
def IllegalTimeSeriesSelectorError.display (_ : IllegalTimeSeriesSelectorError) : String :=
  "vector selectors must either specify a name or at least one label matcher that does not match the empty string"

/-- `pub struct ResponseError { pub kind: String, pub message: String }`
(`src/error.rs:70-74`). -/
structure ResponseError where
  kind : String
  message : String
deriving DecidableEq, Repr

/-- `impl fmt::Display for ResponseError` (`src/error.rs:76-84`):
`write!(f, "the JSON response contains an error of type {}: {}", self.kind, self.message)`. -/
def ResponseError.display (e : ResponseError) : String :=
  "the JSON response contains an error of type " ++ e.kind ++ ": " ++ e.message

/-- `pub struct UnsupportedResponseDataType(pub String);` (`src/error.rs:90`). -/
structure UnsupportedResponseDataType where
  dataType : String
deriving DecidableEq, Repr

/-- `impl fmt::Display for UnsupportedResponseDataType` (`src/error.rs:92-97`). -/
def UnsupportedResponseDataType.display (e : UnsupportedResponseDataType) : String :=
  "the API returned an unsupported type of data, is '" ++ e.dataType ++
    "', must be either 'vector' or 'matrix'"

/-- `pub struct UnknownResponseStatus(pub String);` (`src/error.rs:102`). -/
structure UnknownResponseStatus where
  status : String
deriving DecidableEq, Repr

/-- `impl fmt::Display for UnknownResponseStatus` (`src/error.rs:104-109`); the
literal template contains a space before the comma after "status". -/
def UnknownResponseStatus.display (e : UnknownResponseStatus) : String :=
  "the API returned an unknown response status , is '" ++ e.status ++
    "', must be either 'success' or 'error'"

/-- `pub enum Error` (`src/error.rs:6-15`): the top-level failure union with
exactly seven variants. -/
inductive Error where
  | IllegalMetricName
  | InvalidTimeDuration
  | IllegalTimeSeriesSelector
  | Reqwest (e : ReqwestError)
  | ResponseError (e : ResponseError)
  | UnsupportedResponseDataType (e : UnsupportedResponseDataType)
  | UnknownResponseStatus (e : UnknownResponseStatus)
deriving DecidableEq, Repr

/-- `impl fmt::Display for Error` (`src/error.rs:17-29`): each variant
delegates to the corresponding leaf error's rendering. -/
def Error.display : Error → String
  | .IllegalMetricName => IllegalMetricNameError.display ⟨⟩
  | .InvalidTimeDuration => InvalidTimeDurationError.display ⟨⟩
  | .IllegalTimeSeriesSelector => IllegalTimeSeriesSelectorError.display ⟨⟩
  | .Reqwest e => e.display
  | .ResponseError e => e.display
  | .UnsupportedResponseDataType e => e.display
  | .UnknownResponseStatus e => e.display

/-- Modelled from the spec: "a way to embed each standalone validation error
into" the top-level Failure (§6) — the `From`-style conversion impls are not in
the provided source, only the spec's requirement that each standalone
validation value embeds into the corresponding payload-free variant. -/
def IllegalMetricNameError.intoError (_ : IllegalMetricNameError) : Error :=
  Error.IllegalMetricName

/-- Modelled from the spec: embedding of the standalone
`InvalidTimeDurationError` into the top-level Failure (§6, §3). -/
def InvalidTimeDurationError.intoError (_ : InvalidTimeDurationError) : Error :=
  Error.InvalidTimeDuration

/-- Modelled from the spec: embedding of the standalone
`IllegalTimeSeriesSelectorError` into the top-level Failure (§6, §3). -/
def IllegalTimeSeriesSelectorError.intoError (_ : IllegalTimeSeriesSelectorError) : Error :=
  Error.IllegalTimeSeriesSelector

/-- `hay` contains `needle` as a contiguous substring. -/
def ContainsSubstr (needle hay : String) : Prop :=
  ∃ pre post, hay = pre ++ needle ++ post

theorem string_append_assoc (a b c : String) : a ++ b ++ c = a ++ (b ++ c) := by
  rcases a with ⟨A⟩; rcases b with ⟨B⟩; rcases c with ⟨C⟩
  show String.mk (A ++ B ++ C) = String.mk (A ++ (B ++ C))
  rw [List.append_assoc]

/-- C1: rendering the `Reqwest` (Transport) variant is a pure pass-through of
the wrapped transport error's own rendering. -/
theorem C1_transport_passthrough (e : ReqwestError) :
    (Error.Reqwest e).display = e.display := rfl

/-- C1 witness. -/
theorem C1_transport_passthrough_witness :
    (Error.Reqwest ⟨"connection refused"⟩).display = "connection refused" :=
  C1_transport_passthrough ⟨"connection refused"⟩

/-- C2: the top-level failure type is a closed union — every value falls in one
of exactly the seven cases. -/
theorem C2_closed_union (e : Error) :
    e = Error.IllegalMetricName ∨ e = Error.InvalidTimeDuration ∨
    e = Error.IllegalTimeSeriesSelector ∨ (∃ r, e = Error.Reqwest r) ∨
    (∃ r, e = Error.ResponseError r) ∨
    (∃ r, e = Error.UnsupportedResponseDataType r) ∨
    (∃ r, e = Error.UnknownResponseStatus r) := by
  cases e <;> simp

/-- C3: `ServerReportedError{kind, message}` renders as the fixed template with
both fields inserted verbatim; in particular for `bad_data`/`no query`. -/
theorem C3_response_error_template :
    (∀ kind message : String,
      (ResponseError.mk kind message).display =
        "the JSON response contains an error of type " ++ kind ++ ": " ++ message) ∧
    (ResponseError.mk "bad_data" "no query").display =
      "the JSON response contains an error of type bad_data: no query" :=
  ⟨fun _ _ => rfl, rfl⟩

/-- C4: embedding each standalone validation error into the top-level Failure
and rendering it equals rendering the corresponding top-level variant
directly (lossless embedding). -/
theorem C4_lossless_embedding :
    (∀ v : IllegalMetricNameError,
      v.intoError.display = v.display ∧ v.intoError = Error.IllegalMetricName) ∧
    (∀ v : InvalidTimeDurationError,
      v.intoError.display = v.display ∧ v.intoError = Error.InvalidTimeDuration) ∧
    (∀ v : IllegalTimeSeriesSelectorError,
      v.intoError.display = v.display ∧ v.intoError = Error.IllegalTimeSeriesSelector) :=
  ⟨fun _ => ⟨rfl, rfl⟩, fun _ => ⟨rfl, rfl⟩, fun _ => ⟨rfl, rfl⟩⟩

/-- C5: equality is structural — same case with equal payloads gives equal
values (and conversely), and any two instances of a singleton validation case
are equal. -/
theorem C5_structural_equality :
    (∀ a b : IllegalMetricNameError, a = b) ∧
    (∀ a b : InvalidTimeDurationError, a = b) ∧
    (∀ a b : IllegalTimeSeriesSelectorError, a = b) ∧
    (∀ k₁ m₁ k₂ m₂ : String,
      (Error.ResponseError (ResponseError.mk k₁ m₁) =
        Error.ResponseError (ResponseError.mk k₂ m₂)) ↔ (k₁ = k₂ ∧ m₁ = m₂)) ∧
    (∀ s t : String,
      (Error.UnsupportedResponseDataType (UnsupportedResponseDataType.mk s) =
        Error.UnsupportedResponseDataType (UnsupportedResponseDataType.mk t)) ↔ s = t) ∧
    (∀ s t : String,
      (Error.UnknownResponseStatus (UnknownResponseStatus.mk s) =
        Error.UnknownResponseStatus (UnknownResponseStatus.mk t)) ↔ s = t) ∧
    (∀ r r' : ReqwestError, r = r' → Error.Reqwest r = Error.Reqwest r') := by
  refine ⟨fun a b => rfl, fun a b => rfl, fun a b => rfl, ?_, ?_, ?_, ?_⟩
  · intro k₁ m₁ k₂ m₂; simp
  · intro s t; simp
  · intro s t; simp
  · intro r r' h; rw [h]

/-- C6: `UnsupportedResponseDataType("scalar")` renders as the exact fixed
string. -/
theorem C6_unsupported_scalar :
    (UnsupportedResponseDataType.mk "scalar").display =
      "the API returned an unsupported type of data, is 'scalar', must be either 'vector' or 'matrix'" :=
  rfl

/-- C7: for every payload `s`, the `UnknownResponseStatus` rendering contains
the substring `is '{s}'` and the words `success` and `error`; in particular for
`s = "pending"`. -/
theorem C7_unknown_status_contains (s : String) :
    ContainsSubstr ("is '" ++ s ++ "'") (UnknownResponseStatus.mk s).display ∧
    ContainsSubstr "success" (UnknownResponseStatus.mk s).display ∧
    ContainsSubstr "error" (UnknownResponseStatus.mk s).display := by
  refine ⟨⟨"the API returned an unknown response status , ",
            ", must be either 'success' or 'error'", ?_⟩,
          ⟨"the API returned an unknown response status , is '" ++ s ++ "', must be either '",
            "' or 'error'", ?_⟩,
          ⟨"the API returned an unknown response status , is '" ++ s ++ "', must be either 'success' or '",
            "'", ?_⟩⟩ <;>
    simp only [UnknownResponseStatus.display, string_append_assoc] <;> rfl

/-- C7 witness at `s = "pending"`. -/
theorem C7_unknown_status_contains_witness :
    ContainsSubstr "is 'pending'" (UnknownResponseStatus.mk "pending").display ∧
    ContainsSubstr "success" (UnknownResponseStatus.mk "pending").display ∧
    ContainsSubstr "error" (UnknownResponseStatus.mk "pending").display :=
  C7_unknown_status_contains "pending"

/-- C8: the `IllegalMetricName` case — standalone or top-level — always renders
as exactly the fixed string, with no input dependence. -/
theorem C8_illegal_metric_name_fixed :
    (∀ v : IllegalMetricNameError,
      v.display = "the provided metric name is a reserved PromQL keyword") ∧
    Error.IllegalMetricName.display = "the provided metric name is a reserved PromQL keyword" :=
  ⟨fun _ => rfl, rfl⟩

/-- C9: the implementation preserves the legacy space before the comma: for
every `s`, `UnknownResponseStatus(s)` renders as exactly
`the API returned an unknown response status , is '{s}', must be either 'success' or 'error'`. -/
theorem C9_legacy_space (s : String) :
    (UnknownResponseStatus.mk s).display =
      "the API returned an unknown response status , is '" ++ s ++
        "', must be either 'success' or 'error'" :=
  rfl

/-- C9 witness at `s = "pending"`. -/
theorem C9_legacy_space_witness :
    (UnknownResponseStatus.mk "pending").display =
      "the API returned an unknown response status , is 'pending', must be either 'success' or 'error'" := by
  rw [C9_legacy_space "pending"]; rfl

/-- C10: the payload-bearing response-shape constructors perform no validation:
for every string `s` — including the "valid" values themselves — the value is
constructible and renders via the fixed template with `s` inserted verbatim. -/
theorem C10_no_validation (s : String) :
    (UnsupportedResponseDataType.mk s).display =
      "the API returned an unsupported type of data, is '" ++ s ++
        "', must be either 'vector' or 'matrix'" ∧
    (UnknownResponseStatus.mk s).display =
      "the API returned an unknown response status , is '" ++ s ++
        "', must be either 'success' or 'error'" :=
  ⟨rfl, rfl⟩

/-- C10 witness at the "valid" payloads `"vector"` and `"success"`. -/
theorem C10_no_validation_witness :
    (UnsupportedResponseDataType.mk "vector").display =
      "the API returned an unsupported type of data, is 'vector', must be either 'vector' or 'matrix'" ∧
    (UnknownResponseStatus.mk "success").display =
      "the API returned an unknown response status , is 'success', must be either 'success' or 'error'" := by
  have h := C10_no_validation "vector"
  have h' := C10_no_validation "success"
  exact ⟨h.1, h'.2⟩

end PromErr
